import Mathlib

/-
Verification development for the lvmeteo library (lvmeteo/meteodata.py).

The pipeline is: query construction (create_lv_meteo_data_sql) → transport
(get_response_from_lv_data) → response normalization (records_to_dataframe_raw,
records_to_dataframe) → reshape (the pivot block inside get_lv_meteo_data).

Modelling conventions:
* Python exceptions are an inductive type `PyExc`; fallible code returns
  `Except PyExc α`.  `raise X from e` is modelled by attaching `e` as the
  `cause` of an `apiError`.
* The network is abstracted by an oracle `NetOutcome` passed to the transport:
  the decoded JSON envelope on success, a non-success HTTP status, or an
  exception raised during the call.  "No network call is made" is expressed
  as the result being the same for every oracle value.
* JSON cell values (string | number | null) and coerced values are `Cell`.
  Numbers are restricted to integer literals (the witnesses below only use
  integers); `pandas` object-dtype stringification is used for `astype(str)`
  (`None` renders as "None").  Column-wise `astype` / `to_numeric` /
  `to_datetime` with errors="coerce" act elementwise and are modelled so.
* Python datetimes are a record of calendar fields; `isoformat` and the
  lexicographic comparison are implemented directly.
-/

/-! ### Python datetimes -/

structure PyDateTime where
  year : Nat
  month : Nat
  day : Nat
  hour : Nat := 0
  minute : Nat := 0
  second : Nat := 0
  microsecond : Nat := 0
deriving DecidableEq, Repr

def padNum (w n : Nat) : String :=
  let s := toString n
  String.mk (List.replicate (w - s.length) '0') ++ s

/-- Python datetime.isoformat(): microseconds are printed only when nonzero. -/
def PyDateTime.isoformat (d : PyDateTime) : String :=
  padNum 4 d.year ++ "-" ++ padNum 2 d.month ++ "-" ++ padNum 2 d.day ++ "T"
    ++ padNum 2 d.hour ++ ":" ++ padNum 2 d.minute ++ ":" ++ padNum 2 d.second
    ++ (if d.microsecond = 0 then "" else "." ++ padNum 6 d.microsecond)

/-- Python datetime comparison: lexicographic on the calendar fields. -/
def dtLe (a b : PyDateTime) : Bool :=
  if a.year ≠ b.year then decide (a.year < b.year)
  else if a.month ≠ b.month then decide (a.month < b.month)
  else if a.day ≠ b.day then decide (a.day < b.day)
  else if a.hour ≠ b.hour then decide (a.hour < b.hour)
  else if a.minute ≠ b.minute then decide (a.minute < b.minute)
  else if a.second ≠ b.second then decide (a.second < b.second)
  else decide (a.microsecond ≤ b.microsecond)

/-- A Python value that may or may not be a datetime object
(`isinstance(x, datetime.datetime)` dispatch in the validation code). -/
inductive MaybeDatetime where
  | dt (d : PyDateTime)
  | notADatetime
deriving DecidableEq, Repr

/-! ### Cells and scalar coercions -/

/-- A tabular cell: a raw JSON scalar (null, string, integer number) or a
coerced datetime value (the `utc` flag records tz_localize("UTC")). -/
inductive Cell where
  | null
  | str (s : String)
  | num (n : Int)
  | time (t : PyDateTime) (utc : Bool)
deriving DecidableEq, Repr

/-- Python str() of a cell in an object-dtype column: None renders as "None".
(A datetime cell cannot occur in a raw JSON record.) -/
def pyStrCell : Cell → String
  | .null => "None"
  | .str s => s
  | .num n => toString n
  | .time t _ => t.isoformat

def digitsToNatAux : List Char → Nat → Option Nat
  | [], acc => some acc
  | c :: cs, acc => if c.isDigit then digitsToNatAux cs (acc * 10 + (c.toNat - 48)) else none

def digitsToNat (cs : List Char) : Option Nat :=
  if cs.isEmpty then none else digitsToNatAux cs 0

/-- pd.to_numeric parsing, restricted to integer literals (optionally signed).
Everything else is unparseable and coerces to the missing sentinel. -/
def parseNumber (s : String) : Option Int :=
  match s.toList with
  | '-' :: rest => (digitsToNat rest).map (fun n => -(n : Int))
  | cs => (digitsToNat cs).map (fun n => (n : Int))

def parse2 (a b : Char) : Option Nat :=
  if a.isDigit ∧ b.isDigit then some ((a.toNat - 48) * 10 + (b.toNat - 48)) else none

def parse4 (a b c d : Char) : Option Nat :=
  match parse2 a b, parse2 c d with
  | some hi, some lo => some (hi * 100 + lo)
  | _, _ => none

def daysInMonth (y m : Nat) : Nat :=
  if m = 2 then (if (y % 4 = 0 ∧ y % 100 ≠ 0) ∨ y % 400 = 0 then 29 else 28)
  else if m = 4 ∨ m = 6 ∨ m = 9 ∨ m = 11 then 30 else 31

def mkDT (y mo d h mi s : Nat) : Option PyDateTime :=
  if 1 ≤ mo ∧ mo ≤ 12 ∧ 1 ≤ d ∧ d ≤ daysInMonth y mo ∧ h ≤ 23 ∧ mi ≤ 59 ∧ s ≤ 59 then
    some { year := y, month := mo, day := d, hour := h, minute := mi, second := s }
  else none

/-- pd.to_datetime parsing, restricted to the ISO shapes the API emits:
"YYYY-MM-DD" and "YYYY-MM-DD[T or space]HH:MM:SS".  Out-of-range calendar
fields and every other shape are unparseable. -/
def parseDT (s : String) : Option PyDateTime :=
  match s.toList with
  | [a, b, c, d, '-', e, f, '-', g, h] => do
      mkDT (← parse4 a b c d) (← parse2 e f) (← parse2 g h) 0 0 0
  | [a, b, c, d, '-', e, f, '-', g, h, sep, i, j, ':', k, l, ':', m, n] =>
      if sep = 'T' ∨ sep = ' ' then do
        mkDT (← parse4 a b c d) (← parse2 e f) (← parse2 g h)
          (← parse2 i j) (← parse2 k l) (← parse2 m n)
      else none
  | _ => none

/-- astype(str) on an (object-dtype) column, elementwise. -/
def cellToStr (c : Cell) : Cell := .str (pyStrCell c)

/-- pd.to_numeric(col, errors="coerce"), elementwise: unparseable values
become the missing sentinel, never an error.  (A datetime cell cannot occur
in a raw JSON record and is mapped to the sentinel.) -/
def toNumericCell : Cell → Cell
  | .null => .null
  | .num n => .num n
  | .str s => match parseNumber s with | some n => .num n | none => .null
  | .time _ _ => .null

/-- pd.to_datetime(col, errors="coerce"), elementwise: unparseable values
become the missing sentinel, never an error.  (pandas would read a bare
number as an epoch offset; the data model's timestamp cells are ISO strings,
so a numeric cell is out of scope here and mapped to the sentinel.) -/
def toDatetimeCell : Cell → Cell
  | .null => .null
  | .time t u => .time t u
  | .str s => match parseDT s with | some t => .time t false | none => .null
  | .num _ => .null

/-! ### Exceptions -/

/-- Python exceptions observable in meteodata.py.  `apiError` is
`raise APIError(msg)` and `apiErrorFrom` is `raise APIError(msg) from e`,
with `e` kept as the chained cause; `otherError` stands for any unexpected
exception (KeyErrors, JSON decoding, pandas errors, ...). -/
inductive PyExc where
  | validationError (msg : String)
  | dataNotFoundError (msg : String)
  | timeoutExpired (msg : String)
  | calledProcessError (msg : String)
  | otherError (msg : String)
  | apiError (msg : String)
  | apiErrorFrom (msg : String) (cause : PyExc)
deriving DecidableEq, Repr

/-- Python str(e) of an exception: its message. -/
def excMsg : PyExc → String
  | .validationError m => m
  | .dataNotFoundError m => m
  | .timeoutExpired m => m
  | .calledProcessError m => m
  | .otherError m => m
  | .apiError m => m
  | .apiErrorFrom m _ => m

/-- The three exception kinds re-raised unchanged by
`except (ValidationError, APIError, DataNotFoundError): raise`
(both APIError forms are instances of APIError). -/
def isPipelineExc : PyExc → Bool
  | .validationError _ => true
  | .apiError _ => true
  | .apiErrorFrom _ _ => true
  | .dataNotFoundError _ => true
  | _ => false

/-- The shared tail of every public operation:
`except (ValidationError, APIError, DataNotFoundError): raise` followed by
`except Exception as e: raise APIError(pfx + str(e)) from e`. -/
def reraiseWrap (pfx : String) : Except PyExc α → Except PyExc α
  | .ok a => .ok a
  | .error e =>
      if isPipelineExc e then .error e
      else .error (.apiErrorFrom (pfx ++ excMsg e) e)

/-! ### Query builder: create_lv_meteo_data_sql -/

/-- The Union[str, List[str]] arguments of the query builder. -/
inductive StrOrList where
  | scalar (s : String)
  | list (l : List String)
deriving DecidableEq, Repr

/-- Python truthiness of such an argument: empty string and empty list are falsy. -/
def StrOrList.isFalsy : StrOrList → Bool
  | .scalar s => s = ""
  | .list l => l.isEmpty

/-- Lines 89-93: a scalar (a str is iterable but explicitly excluded) is
normalized to a one-element list, never iterated character-by-character. -/
def StrOrList.toList : StrOrList → List String
  | .scalar s => [s]
  | .list l => l

/-- Lines 95-96: each element wrapped in single quotes, no escaping, comma-joined. -/
def quoteJoin (l : List String) : String :=
  String.intercalate "," (l.map (fun x => "'" ++ x ++ "'"))

/-- meteodata.create_lv_meteo_data_sql (lines 50-107): validation, input
normalization, and the base_sql template instantiation. -/
def create_lv_meteo_data_sql (table : String) (stations parameters : StrOrList)
    (startdate enddate : MaybeDatetime) : Except PyExc String :=
  if table = "" then .error (.validationError "Table name cannot be empty")
  else if stations.isFalsy then .error (.validationError "Stations list cannot be empty")
  else if parameters.isFalsy then .error (.validationError "Parameters list cannot be empty")
  else
    match startdate, enddate with
    | .notADatetime, _ => .error (.validationError "Start date must be a datetime object")
    | .dt _, .notADatetime => .error (.validationError "End date must be a datetime object")
    | .dt d1, .dt d2 =>
      if dtLe d2 d1 then .error (.validationError "Start date must be before end date")
      else
        .ok ("SELECT * from \"" ++ table ++ "\" WHERE \"STATION_ID\" in ("
          ++ quoteJoin stations.toList ++ ") and \"ABBREVIATION\" in ("
          ++ quoteJoin parameters.toList ++ ") and \"DATETIME\" BETWEEN '"
          ++ d1.isoformat ++ "' and '" ++ d2.isoformat ++ "'")

/-! ### Transport: get_response_from_lv_data -/

/-- The JSON envelope of the remote API, as the data model declares it:
a present `result` object always carries its `fields` and `records` members.
`fields` is the FieldMeta list (id, type); a record is a JSON object,
modelled as an association list. -/
structure ResultObj where
  fields : List (String × String)
  records : List (List (String × Cell))
deriving DecidableEq, Repr

structure Envelope where
  success : Bool
  error : Option String := none
  result : Option ResultObj := none
deriving DecidableEq, Repr

/-- Oracle for one transport attempt: the decoded envelope on success, a
non-success HTTP status (requests mode), or an exception raised during the
call (timeout, process failure, network error, malformed JSON, ...). -/
inductive NetOutcome where
  | ok (env : Envelope)
  | badStatus (code : Nat) (body : String)
  | raised (e : PyExc)
deriving DecidableEq, Repr

/-- Line 156: the error message built for a non-success HTTP status. -/
def statusErrorMsg (code : Nat) (body : String) : String :=
  "API request failed with status " ++ toString code ++ ": " ++ body

/-- The try-block of get_response_from_lv_data (lines 135-158): return the
decoded envelope, or raise APIError for a non-success status, or let the
call's own exception escape to the except-clauses. -/
def transportTryBody (net : NetOutcome) : Except PyExc Envelope :=
  match net with
  | .ok env => .ok env
  | .badStatus code body => .error (.apiError (statusErrorMsg code body))
  | .raised e => .error e

/-- The except-clauses of get_response_from_lv_data (lines 160-171), in
order: TimeoutExpired, CalledProcessError, then a blanket except Exception.
Note that an APIError raised inside the try-block is an Exception and so is
caught and re-wrapped by the blanket clause. -/
def transportExcept : Except PyExc Envelope → Except PyExc Envelope
  | .ok env => .ok env
  | .error (.timeoutExpired m) =>
      .error (.apiErrorFrom ("Request timed out: " ++ m) (.timeoutExpired m))
  | .error (.calledProcessError m) =>
      .error (.apiErrorFrom ("Curl command failed: " ++ m) (.calledProcessError m))
  | .error e => .error (.apiErrorFrom ("Unexpected error during API request: " ++ excMsg e) e)

/-- meteodata.get_response_from_lv_data (lines 110-171): reject an empty SQL
string before any network activity, then run one transport attempt. -/
def get_response_from_lv_data (sql : String) (net : NetOutcome) : Except PyExc Envelope :=
  if sql = "" then .error (.validationError "SQL query cannot be empty")
  else transportExcept (transportTryBody net)

/-! ### Normalizer: records_to_dataframe_raw / records_to_dataframe -/

/-- A pandas DataFrame: named columns, row-major cells, and the columns
moved into the index by set_index. -/
structure DataFrame where
  columns : List String := []
  rows : List (List Cell) := []
  index : List (String × List Cell) := []
deriving DecidableEq, Repr

def emptyDataFrame : DataFrame := {}

/-- df.empty: true when either axis has length zero. -/
def dfEmpty (df : DataFrame) : Bool := df.rows.isEmpty || df.columns.isEmpty

/-- Keep the first occurrence of each element (drop_duplicates keep="first";
also the order-preserving key union of pd.DataFrame on a record list). -/
def dedupFirstAux [DecidableEq α] (seen : List α) : List α → List α
  | [] => []
  | x :: xs => if x ∈ seen then dedupFirstAux seen xs else x :: dedupFirstAux (x :: seen) xs

def dedupFirst [DecidableEq α] (l : List α) : List α := dedupFirstAux [] l

/-- Python dict .get(k) on a JSON record: the value, or None when absent. -/
def recordGet (r : List (String × Cell)) (k : String) : Cell :=
  match r.find? (fun p => p.1 = k) with
  | some p => p.2
  | none => .null

/-- Line 190: field_dict = a dict comprehension over fields (later duplicate
ids win), and field_dict.get(c, "text") defaults a column with no field
metadata to "text". -/
def fieldTypeOf (fields : List (String × String)) (c : String) : String :=
  match fields.reverse.find? (fun p => p.1 = c) with
  | some p => p.2
  | none => "text"

/-- Lines 195-203: the per-column coercion dispatch.  A type tag other than
text, numeric, or timestamp falls through every branch and leaves the
column unchanged. -/
def coerceCell (vtype : String) (cell : Cell) : Cell :=
  if vtype = "text" then cellToStr cell
  else if vtype = "numeric" then toNumericCell cell
  else if vtype = "timestamp" then toDatetimeCell cell
  else cell

/-- meteodata.records_to_dataframe_raw (lines 174-203): build the frame
(selected columns, or the order-preserving union of record keys), then
coerce each column by its declared field type. -/
def records_to_dataframe_raw (fields : List (String × String))
    (records : List (List (String × Cell))) (cols : Option (List String)) : DataFrame :=
  let cs := match cols with
    | some cs => cs
    | none => dedupFirst (records.map (fun r => r.map Prod.fst)).flatten
  { columns := cs,
    rows := records.map (fun r => cs.map (fun cn => coerceCell (fieldTypeOf fields cn) (recordGet r cn))),
    index := [] }

/-- Line 224-225: rename columns through dict(zip(column_dict.values(),
column_dict.keys())) (later duplicate keys win); unmapped columns keep
their name. -/
def renameCol (inv : List (String × String)) (c : String) : String :=
  match inv.reverse.find? (fun p => p.1 = c) with
  | some p => p.2
  | none => c

/-- meteodata.records_to_dataframe (lines 206-226): select the map's target
columns, then rename them API-name → friendly-name. -/
def records_to_dataframe (column_dict : List (String × String))
    (fields : List (String × String)) (records : List (List (String × Cell))) : DataFrame :=
  let df := records_to_dataframe_raw fields records (some (column_dict.map Prod.snd))
  let inv := column_dict.map (fun p => (p.2, p.1))
  { df with columns := df.columns.map (renameCol inv) }

/-- config.DATA_COLUMNS: friendly name → API column name for observations. -/
def DATA_COLUMNS : List (String × String) :=
  [("station_id", "STATION_ID"), ("param", "ABBREVIATION"),
   ("date", "DATETIME"), ("value", "VALUE")]

/-- The value cells of a named column (first matching column). -/
def colIdx (cols : List String) (c : String) : Nat :=
  match cols with
  | [] => 0
  | x :: xs => if x = c then 0 else colIdx xs c + 1

def columnOf (df : DataFrame) (c : String) : List Cell :=
  df.rows.map (fun row => row.getD (colIdx df.columns c) Cell.null)

/-! ### Reshaper: the pivot block of get_lv_meteo_data -/

/-- Ordering used by sort_index on the composite key cells.  Keys in a data
frame are (string station, string parameter, datetime date); the ranking of
mixed constructors is a modelling total order for the sort only. -/
def cellRank : Cell → Nat
  | .null => 0
  | .str _ => 1
  | .num _ => 2
  | .time _ _ => 3

def cellLe (a b : Cell) : Bool :=
  match a, b with
  | .str s, .str t => !decide (t < s)
  | .num m, .num n => decide (m ≤ n)
  | .time s _, .time t _ => dtLe s t
  | a, b => decide (cellRank a ≤ cellRank b)

def key3Le (a b : Cell × Cell × Cell) : Bool :=
  if a.1 ≠ b.1 then cellLe a.1 b.1
  else if a.2.1 ≠ b.2.1 then cellLe a.2.1 b.2.1
  else cellLe a.2.2 b.2.2

/-- Stable insertion: a new element goes after every existing element that
compares ≤ to it (sort_index is a stable sort). -/
def insertSorted (le : α → α → Bool) (x : α) : List α → List α
  | [] => [x]
  | y :: ys => if le y x then y :: insertSorted le x ys else x :: y :: ys

def sortStable (le : α → α → Bool) (l : List α) : List α :=
  l.foldl (fun acc x => insertSorted le x acc) []

/-- pd.DatetimeIndex(col).tz_localize("UTC"): tag naive datetimes with UTC.
(NaT stays NaT; other cells cannot occur in a coerced timestamp column.) -/
def localizeUTC : Cell → Cell
  | .time t _ => .time t true
  | c => c

/-- Apply f to the cell at one column position of every row. -/
def setAtMap (f : Cell → Cell) : Nat → List Cell → List Cell
  | _, [] => []
  | 0, c :: cs => f c :: cs
  | n + 1, c :: cs => c :: setAtMap f n cs

def mapColAt (cols : List String) (c : String) (f : Cell → Cell)
    (rows : List (List Cell)) : List (List Cell) :=
  rows.map (setAtMap f (colIdx cols c))

/-- The (station_id, param, date) composite index key of a row. -/
def rowKeyOf (cols : List String) (row : List Cell) : Cell × Cell × Cell :=
  (row.getD (colIdx cols "station_id") Cell.null,
   row.getD (colIdx cols "param") Cell.null,
   row.getD (colIdx cols "date") Cell.null)

/-- The wide station×parameter table produced by
unstack(level=["station_id", "param"])["value"]. -/
structure PivotedTable where
  index : List Cell
  cols : List (Cell × Cell)
  values : List (List Cell)
deriving DecidableEq, Repr

/-- The value cell of the row carrying a given composite key. -/
def lookupValue (cols : List String) (rows : List (List Cell))
    (k : Cell × Cell × Cell) : Cell :=
  match rows.find? (fun r => rowKeyOf cols r = k) with
  | some r => r.getD (colIdx cols "value") Cell.null
  | none => Cell.null

def hasDupKeys (cols : List String) (rows : List (List Cell)) : Bool :=
  let ks := rows.map (rowKeyOf cols)
  decide ((dedupFirst ks).length ≠ ks.length)

/-- pandas unstack on the sorted, indexed frame: one row per distinct date,
one column per distinct (station_id, param) pair, the "value" column
projected out; duplicate composite keys make pandas raise a ValueError. -/
def unstackMeteo (cols : List String) (rows : List (List Cell)) :
    Except PyExc PivotedTable :=
  if hasDupKeys cols rows then
    .error (.otherError "Index contains duplicate entries, cannot reshape")
  else
    let dates := dedupFirst (rows.map (fun r => r.getD (colIdx cols "date") Cell.null))
    let pairs := dedupFirst (rows.map (fun r =>
      (r.getD (colIdx cols "station_id") Cell.null, r.getD (colIdx cols "param") Cell.null)))
    .ok { index := dates, cols := pairs,
          values := dates.map (fun d => pairs.map (fun sp => lookupValue cols rows (sp.1, sp.2, d))) }

/-- The result of get_lv_meteo_data: the typed table unchanged, or the
pivoted wide table. -/
inductive MeteoResult where
  | table (df : DataFrame)
  | pivoted (p : PivotedTable)
deriving DecidableEq, Repr

/-- Lines 282-287 of get_lv_meteo_data: when the "date" column is present
and the frame is non-empty, localize to UTC, drop exact-duplicate rows
keeping the first, sort by the composite index, and unstack; otherwise the
typed table is returned unchanged. -/
def reshapeStep (df : DataFrame) : Except PyExc MeteoResult :=
  if "date" ∈ df.columns ∧ dfEmpty df = false then
    let rows1 := mapColAt df.columns "date" localizeUTC df.rows
    let rows2 := dedupFirst rows1
    let rows3 := sortStable (fun a b => key3Le (rowKeyOf df.columns a) (rowKeyOf df.columns b)) rows2
    (unstackMeteo df.columns rows3).map MeteoResult.pivoted
  else .ok (.table df)

/-! ### Public operations -/

/-- meteodata.get_lv_meteo_data (lines 229-296): build the SQL, run the
transport, check the envelope, normalize through DATA_COLUMNS, reshape; the
final except-clauses re-raise pipeline errors unchanged and wrap anything
else once as APIError with the cause attached. -/
def get_lv_meteo_data (table : String) (stations parameters : StrOrList)
    (startdate enddate : MaybeDatetime) (net : NetOutcome) : Except PyExc MeteoResult :=
  reraiseWrap "Unexpected error processing meteorological data: " (do
    let sql ← create_lv_meteo_data_sql table stations parameters startdate enddate
    let data ← get_response_from_lv_data sql net
    if data.success = false then
      .error (.apiError ("API returned unsuccessful response: " ++ data.error.getD "Unknown error"))
    else
      match data.result with
      | none => .error (.dataNotFoundError "No result data returned from API")
      | some result =>
        if result.records.isEmpty then .ok (.table emptyDataFrame)
        else
          reshapeStep (records_to_dataframe DATA_COLUMNS result.fields result.records))

/-- df.set_index(ic): move the named column into the index. -/
def setIndex (df : DataFrame) (ic : String) : DataFrame :=
  let i := colIdx df.columns ic
  { columns := df.columns.eraseIdx i,
    rows := df.rows.map (fun r => r.eraseIdx i),
    index := [(ic, columnOf df ic)] }

/-- meteodata.get_fromsql (lines 349-409): run the transport on a caller
SQL string, check the envelope, normalize (through the field map when one
is given), optionally set the index when the requested column is present;
the final except-clauses mirror get_lv_meteo_data. -/
def get_fromsql (sql : String) (fieldmap : Option (List (String × String)))
    (index_col : Option String) (net : NetOutcome) : Except PyExc DataFrame :=
  reraiseWrap "Unexpected error executing SQL query: " (do
    let data ← get_response_from_lv_data sql net
    if data.success = false then
      .error (.apiError ("SQL query failed: " ++ data.error.getD "Unknown error"))
    else
      match data.result with
      | none => .error (.dataNotFoundError "No result data returned from SQL query")
      | some result =>
        if result.records.isEmpty then .ok emptyDataFrame
        else
          let df := match fieldmap with
            | some fm => records_to_dataframe fm result.fields result.records
            | none => records_to_dataframe_raw result.fields result.records none
          match index_col with
          | none => .ok df
          | some ic =>
            if dfEmpty df = false then
              if ic ∈ df.columns then .ok (setIndex df ic) else .ok df
            else .ok df)

/-- Line 345: the SQL built by get_table, with the trailing space of the
f-string literal. -/
def tableSql (table : String) : String :=
  "SELECT * from \"" ++ table ++ "\" "

/-- meteodata.get_table (lines 327-346): full-table retrieval through
get_fromsql. -/
def get_table (table : String) (fieldmap : Option (List (String × String)))
    (index_col : Option String) (net : NetOutcome) : Except PyExc DataFrame :=
  get_fromsql (tableSql table) fieldmap index_col net

/-! ### Helper lemmas -/

instance {ε α : Type _} [DecidableEq ε] [DecidableEq α] : DecidableEq (Except ε α) := fun x y =>
  match x, y with
  | .ok a, .ok b =>
      if h : a = b then isTrue (by rw [h]) else isFalse (fun hc => h (Except.ok.inj hc))
  | .error e, .error f =>
      if h : e = f then isTrue (by rw [h]) else isFalse (fun hc => h (Except.error.inj hc))
  | .ok _, .error _ => isFalse (fun hc => Except.noConfusion hc)
  | .error _, .ok _ => isFalse (fun hc => Except.noConfusion hc)

theorem string_append_ne_empty_right (p q : String) (h : q ≠ "") : p ++ q ≠ "" := by
  intro hc
  have hd : p.data ++ q.data = [] := by
    have h2 := congrArg String.data hc
    rwa [String.data_append] at h2
  exact h (String.ext (List.append_eq_nil.mp hd).2)

theorem reraiseWrap_pipeline (pfx : String) (e : PyExc) (h : isPipelineExc e = true) :
    reraiseWrap pfx (Except.error e) = (Except.error e : Except PyExc α) := by
  simp [reraiseWrap, h]

theorem reraiseWrap_other (pfx : String) (e : PyExc) (h : isPipelineExc e = false) :
    reraiseWrap pfx (Except.error e)
      = (Except.error (.apiErrorFrom (pfx ++ excMsg e) e) : Except PyExc α) := by
  simp [reraiseWrap, h]

theorem create_list_ok (t : String) (ss ps : List String) (d1 d2 : PyDateTime)
    (ht : t ≠ "") (hs : ss ≠ []) (hp : ps ≠ []) (hd : dtLe d2 d1 = false) :
    create_lv_meteo_data_sql t (.list ss) (.list ps) (.dt d1) (.dt d2) =
      .ok ("SELECT * from \"" ++ t ++ "\" WHERE \"STATION_ID\" in ("
        ++ String.intercalate "," (ss.map (fun x => "'" ++ x ++ "'"))
        ++ ") and \"ABBREVIATION\" in ("
        ++ String.intercalate "," (ps.map (fun x => "'" ++ x ++ "'"))
        ++ ") and \"DATETIME\" BETWEEN '"
        ++ d1.isoformat ++ "' and '" ++ d2.isoformat ++ "'") := by
  simp [create_lv_meteo_data_sql, StrOrList.isFalsy, StrOrList.toList, quoteJoin,
    ht, hs, hp, hd]

theorem created_sql_ne_empty (t : String) (ss ps : List String) (d1 d2 : PyDateTime) :
    ("SELECT * from \"" ++ t ++ "\" WHERE \"STATION_ID\" in ("
        ++ String.intercalate "," (ss.map (fun x => "'" ++ x ++ "'"))
        ++ ") and \"ABBREVIATION\" in ("
        ++ String.intercalate "," (ps.map (fun x => "'" ++ x ++ "'"))
        ++ ") and \"DATETIME\" BETWEEN '"
        ++ d1.isoformat ++ "' and '" ++ d2.isoformat ++ "'") ≠ "" :=
  string_append_ne_empty_right _ _ (by decide)

theorem transportExcept_shape (r : Except PyExc Envelope) :
    (∃ env, transportExcept r = .ok env) ∨
    (∃ m c, transportExcept r = .error (.apiErrorFrom m c)) := by
  cases r with
  | ok env => exact Or.inl ⟨env, rfl⟩
  | error e => cases e <;> exact Or.inr ⟨_, _, rfl⟩

theorem ifchain_ok_ne_error {α ε : Type _} (c1 c2 : Prop) [Decidable c1] [Decidable c2]
    (a b c : α) (e : ε) :
    (if c1 then if c2 then Except.ok a else Except.ok b else Except.ok c)
      ≠ (Except.error e : Except ε α) := by
  split <;> (try split) <;> simp

theorem reraiseWrap_validation (pfx : String) (r : Except PyExc α) (msg : String)
    (h : reraiseWrap pfx r = .error (.validationError msg)) :
    r = .error (.validationError msg) := by
  cases r with
  | ok a => simp [reraiseWrap] at h
  | error e =>
    by_cases hp : isPipelineExc e = true
    · rw [reraiseWrap_pipeline _ _ hp] at h; exact h
    · rw [reraiseWrap_other _ _ (by simpa using hp)] at h; simp at h

theorem get_fromsql_not_validation (sql : String) (fm : Option (List (String × String)))
    (ic : Option String) (net : NetOutcome) (msg : String) (h : sql ≠ "") :
    get_fromsql sql fm ic net ≠ Except.error (.validationError msg) := by
  intro hc
  unfold get_fromsql at hc
  have hb := reraiseWrap_validation _ _ _ hc
  unfold get_response_from_lv_data at hb
  rw [if_neg h] at hb
  rcases transportExcept_shape (transportTryBody net) with ⟨env, he⟩ | ⟨m, c, he⟩
  · rw [he] at hb
    simp only [bind, Except.bind] at hb
    rcases env with ⟨succ, err, res⟩
    cases succ
    · simp at hb
    · cases res with
      | none => simp at hb
      | some r =>
        by_cases hr : r.records.isEmpty
        · simp [hr] at hb
        · simp only [hr] at hb
          cases fm <;> cases ic <;>
            first
              | exact ifchain_ok_ne_error _ _ _ _ _ _ hb
              | simp at hb
  · rw [he] at hb
    simp [bind, Except.bind] at hb

theorem getD_map_colIdx (cs : List String) (c : String) (f : String → Cell)
    (h : c ∈ cs) : (cs.map f).getD (colIdx cs c) Cell.null = f c := by
  induction cs with
  | nil => cases h
  | cons x xs ih =>
    by_cases hx : x = c
    · subst hx; simp [colIdx]
    · have hmem : c ∈ xs := by
        rcases List.mem_cons.mp h with h1 | h1
        · exact absurd h1.symm hx
        · exact h1
      simp only [colIdx, hx, if_false, List.map_cons, List.getD_cons_succ]
      exact ih hmem

theorem columnOf_raw (fields : List (String × String))
    (records : List (List (String × Cell))) (cs : List String) (c : String)
    (h : c ∈ cs) :
    columnOf (records_to_dataframe_raw fields records (some cs)) c
      = records.map (fun r => coerceCell (fieldTypeOf fields c) (recordGet r c)) := by
  unfold columnOf records_to_dataframe_raw
  simp only [List.map_map]
  refine List.map_congr_left (fun r _ => ?_)
  exact getD_map_colIdx cs c _ h

theorem get_lv_create_error (t : String) (s p : StrOrList) (a b : MaybeDatetime)
    (e : PyExc) (h : create_lv_meteo_data_sql t s p a b = .error e)
    (hp : isPipelineExc e = true) (net : NetOutcome) :
    get_lv_meteo_data t s p a b net = .error e := by
  simp [get_lv_meteo_data, h, bind, Except.bind, reraiseWrap, hp]

/-! ### Claims -/

/-- C1: create_lv_meteo_data_sql raises ValidationError for each
independently invalid input — empty table, empty station list, empty
parameter list, a start or end that is not a datetime, and start ≥ end —
and then no SQL string is produced (the result is that error, not a query)
and no network call is made (get_lv_meteo_data returns that very
ValidationError whatever the network oracle would answer, so the transport
is never consulted). -/
theorem c1_validation_short_circuit (table : String) (stations parameters : StrOrList)
    (startdate enddate : MaybeDatetime)
    (h : table = "" ∨ stations = .list [] ∨ parameters = .list [] ∨
      startdate = .notADatetime ∨ enddate = .notADatetime ∨
      ∃ d1 d2, startdate = .dt d1 ∧ enddate = .dt d2 ∧ dtLe d2 d1 = true) :
    ∃ msg,
      create_lv_meteo_data_sql table stations parameters startdate enddate
        = .error (.validationError msg) ∧
      ∀ net, get_lv_meteo_data table stations parameters startdate enddate net
        = .error (.validationError msg) := by
  have hcr : ∃ msg,
      create_lv_meteo_data_sql table stations parameters startdate enddate
        = .error (.validationError msg) := by
    by_cases ht : table = ""
    · exact ⟨"Table name cannot be empty", by simp [create_lv_meteo_data_sql, ht]⟩
    · by_cases hsf : stations.isFalsy = true
      · exact ⟨"Stations list cannot be empty", by simp [create_lv_meteo_data_sql, ht, hsf]⟩
      · by_cases hpf : parameters.isFalsy = true
        · exact ⟨"Parameters list cannot be empty", by simp [create_lv_meteo_data_sql, ht, hsf, hpf]⟩
        · cases startdate with
          | notADatetime => exact ⟨"Start date must be a datetime object", by simp [create_lv_meteo_data_sql, ht, hsf, hpf]⟩
          | dt d1 =>
            cases enddate with
            | notADatetime => exact ⟨"End date must be a datetime object", by simp [create_lv_meteo_data_sql, ht, hsf, hpf]⟩
            | dt d2 =>
              have hle : dtLe d2 d1 = true := by
                rcases h with h | h | h | h | h | ⟨a, b, ha, hb, hab⟩
                · exact absurd h ht
                · exact absurd (by simp [h, StrOrList.isFalsy]) hsf
                · exact absurd (by simp [h, StrOrList.isFalsy]) hpf
                · cases h
                · cases h
                · cases ha; cases hb; exact hab
              exact ⟨"Start date must be before end date", by simp [create_lv_meteo_data_sql, ht, hsf, hpf, hle]⟩
  obtain ⟨msg, hmsg⟩ := hcr
  exact ⟨msg, hmsg, fun net => get_lv_create_error _ _ _ _ _ _ hmsg rfl net⟩

/-- Witness for C1 at a concrete invalid input (an empty station list with
every other argument valid): the builder returns a ValidationError and the
public operation returns it for every network oracle. -/
theorem c1_validation_short_circuit_witness :
    ∃ msg,
      create_lv_meteo_data_sql "tbl" (.list []) (.list ["HTDRY"])
          (.dt ⟨2024, 1, 1, 0, 0, 0, 0⟩) (.dt ⟨2024, 1, 2, 0, 0, 0, 0⟩)
        = .error (.validationError msg) ∧
      ∀ net, get_lv_meteo_data "tbl" (.list []) (.list ["HTDRY"])
          (.dt ⟨2024, 1, 1, 0, 0, 0, 0⟩) (.dt ⟨2024, 1, 2, 0, 0, 0, 0⟩) net
        = .error (.validationError msg) :=
  c1_validation_short_circuit "tbl" (.list []) (.list ["HTDRY"])
    (.dt ⟨2024, 1, 1, 0, 0, 0, 0⟩) (.dt ⟨2024, 1, 2, 0, 0, 0, 0⟩)
    (Or.inr (Or.inl rfl))

/-- C7 counterexample: at a concrete valid input, the SQL string the builder
returns is not an instance of the claimed template — the source template
spells the keywords from, in, and in lower case (`SELECT * from ... in
(...) and ... in (...) and ... BETWEEN ... and ...`), so the string with
upper-case FROM/IN/AND is not produced. -/
theorem c7_shape_counterexample :
    create_lv_meteo_data_sql "T1" (.list ["A"]) (.list ["P1"])
        (.dt ⟨2024, 1, 1, 0, 0, 0, 0⟩) (.dt ⟨2024, 1, 2, 0, 0, 0, 0⟩)
      = .ok "SELECT * from \"T1\" WHERE \"STATION_ID\" in ('A') and \"ABBREVIATION\" in ('P1') and \"DATETIME\" BETWEEN '2024-01-01T00:00:00' and '2024-01-02T00:00:00'"
    ∧ create_lv_meteo_data_sql "T1" (.list ["A"]) (.list ["P1"])
        (.dt ⟨2024, 1, 1, 0, 0, 0, 0⟩) (.dt ⟨2024, 1, 2, 0, 0, 0, 0⟩)
      ≠ .ok "SELECT * FROM \"T1\" WHERE \"STATION_ID\" IN ('A') AND \"ABBREVIATION\" IN ('P1') AND \"DATETIME\" BETWEEN '2024-01-01T00:00:00' AND '2024-01-02T00:00:00'" := by
  constructor
  · rfl
  · decide

/-- C7 amended: for every valid input (non-empty table, non-empty station
list, non-empty parameter list, start < end), create_lv_meteo_data_sql
returns the single SQL string
`SELECT * from "<table>" WHERE "STATION_ID" in (<quoted station list>) and
"ABBREVIATION" in (<quoted parameter list>) and "DATETIME" BETWEEN
'<start ISO8601>' and '<end ISO8601>'` (the keywords from/in/and in lower
case as in the source template), where each list element is wrapped in
single quotes with no escaping. -/
theorem c7_sql_shape (t : String) (ss ps : List String) (d1 d2 : PyDateTime)
    (ht : t ≠ "") (hs : ss ≠ []) (hp : ps ≠ []) (hd : dtLe d2 d1 = false) :
    create_lv_meteo_data_sql t (.list ss) (.list ps) (.dt d1) (.dt d2) =
      .ok ("SELECT * from \"" ++ t ++ "\" WHERE \"STATION_ID\" in ("
        ++ String.intercalate "," (ss.map (fun x => "'" ++ x ++ "'"))
        ++ ") and \"ABBREVIATION\" in ("
        ++ String.intercalate "," (ps.map (fun x => "'" ++ x ++ "'"))
        ++ ") and \"DATETIME\" BETWEEN '"
        ++ d1.isoformat ++ "' and '" ++ d2.isoformat ++ "'") :=
  create_list_ok t ss ps d1 d2 ht hs hp hd

/-- Witness for the amended C7 at a concrete valid input. -/
theorem c7_sql_shape_witness :
    create_lv_meteo_data_sql "T1" (.list ["A", "B"]) (.list ["P1"])
        (.dt ⟨2024, 1, 1, 0, 0, 0, 0⟩) (.dt ⟨2024, 1, 2, 0, 0, 0, 0⟩) =
      .ok ("SELECT * from \"" ++ "T1" ++ "\" WHERE \"STATION_ID\" in ("
        ++ String.intercalate "," (["A", "B"].map (fun x => "'" ++ x ++ "'"))
        ++ ") and \"ABBREVIATION\" in ("
        ++ String.intercalate "," (["P1"].map (fun x => "'" ++ x ++ "'"))
        ++ ") and \"DATETIME\" BETWEEN '"
        ++ PyDateTime.isoformat ⟨2024, 1, 1, 0, 0, 0, 0⟩ ++ "' and '"
        ++ PyDateTime.isoformat ⟨2024, 1, 2, 0, 0, 0, 0⟩ ++ "'") :=
  c7_sql_shape "T1" ["A", "B"] ["P1"] ⟨2024, 1, 1, 0, 0, 0, 0⟩ ⟨2024, 1, 2, 0, 0, 0, 0⟩
    (by decide) (by decide) (by decide) (by decide)

/-- C8: create_lv_meteo_data_sql is deterministic (the same call yields the
same result), and a single scalar station or parameter produces exactly the
same result as the one-element list containing it — a string argument is
normalized to a one-element list, never iterated character-by-character. -/
theorem c8_scalar_singleton (table s p : String) (ss ps : List String)
    (sd ed : MaybeDatetime) (hs : s ≠ "") (hp : p ≠ "") :
    (create_lv_meteo_data_sql table (.scalar s) (.scalar p) sd ed
      = create_lv_meteo_data_sql table (.scalar s) (.scalar p) sd ed) ∧
    (create_lv_meteo_data_sql table (.scalar s) (.list ps) sd ed
      = create_lv_meteo_data_sql table (.list [s]) (.list ps) sd ed) ∧
    (create_lv_meteo_data_sql table (.list ss) (.scalar p) sd ed
      = create_lv_meteo_data_sql table (.list ss) (.list [p]) sd ed) ∧
    (create_lv_meteo_data_sql table (.scalar s) (.scalar p) sd ed
      = create_lv_meteo_data_sql table (.list [s]) (.list [p]) sd ed) := by
  refine ⟨rfl, ?_, ?_, ?_⟩ <;>
    simp [create_lv_meteo_data_sql, StrOrList.isFalsy, StrOrList.toList, hs, hp]

/-- Witness for C8 at a concrete scalar input. -/
theorem c8_scalar_singleton_witness :
    (create_lv_meteo_data_sql "T1" (.scalar "RIGASLU") (.scalar "HTDRY")
        (.dt ⟨2024, 1, 1, 0, 0, 0, 0⟩) (.dt ⟨2024, 1, 2, 0, 0, 0, 0⟩)
      = create_lv_meteo_data_sql "T1" (.scalar "RIGASLU") (.scalar "HTDRY")
        (.dt ⟨2024, 1, 1, 0, 0, 0, 0⟩) (.dt ⟨2024, 1, 2, 0, 0, 0, 0⟩)) ∧
    (create_lv_meteo_data_sql "T1" (.scalar "RIGASLU") (.list ["HTDRY"])
        (.dt ⟨2024, 1, 1, 0, 0, 0, 0⟩) (.dt ⟨2024, 1, 2, 0, 0, 0, 0⟩)
      = create_lv_meteo_data_sql "T1" (.list ["RIGASLU"]) (.list ["HTDRY"])
        (.dt ⟨2024, 1, 1, 0, 0, 0, 0⟩) (.dt ⟨2024, 1, 2, 0, 0, 0, 0⟩)) ∧
    (create_lv_meteo_data_sql "T1" (.list ["RIGASLU"]) (.scalar "HTDRY")
        (.dt ⟨2024, 1, 1, 0, 0, 0, 0⟩) (.dt ⟨2024, 1, 2, 0, 0, 0, 0⟩)
      = create_lv_meteo_data_sql "T1" (.list ["RIGASLU"]) (.list ["HTDRY"])
        (.dt ⟨2024, 1, 1, 0, 0, 0, 0⟩) (.dt ⟨2024, 1, 2, 0, 0, 0, 0⟩)) ∧
    (create_lv_meteo_data_sql "T1" (.scalar "RIGASLU") (.scalar "HTDRY")
        (.dt ⟨2024, 1, 1, 0, 0, 0, 0⟩) (.dt ⟨2024, 1, 2, 0, 0, 0, 0⟩)
      = create_lv_meteo_data_sql "T1" (.list ["RIGASLU"]) (.list ["HTDRY"])
        (.dt ⟨2024, 1, 1, 0, 0, 0, 0⟩) (.dt ⟨2024, 1, 2, 0, 0, 0, 0⟩)) :=
  c8_scalar_singleton "T1" "RIGASLU" "HTDRY" ["RIGASLU"] ["HTDRY"]
    (.dt ⟨2024, 1, 1, 0, 0, 0, 0⟩) (.dt ⟨2024, 1, 2, 0, 0, 0, 0⟩)
    (by decide) (by decide)

/-- C9: in get_lv_meteo_data, when the typed table has zero rows or lacks
the "date" column, the reshaping steps (UTC localization, deduplication,
composite-index sort, pivot) are all skipped and the typed table is
returned unchanged. -/
theorem c9_reshape_skip (df : DataFrame)
    (h : df.rows = [] ∨ "date" ∉ df.columns) :
    reshapeStep df = .ok (.table df) := by
  unfold reshapeStep
  rcases h with h | h
  · rw [if_neg]
    rintro ⟨-, h2⟩
    simp [dfEmpty, h] at h2
  · rw [if_neg]
    rintro ⟨h1, -⟩
    exact h h1

/-- Witness for C9 at a concrete typed table lacking the "date" column. -/
theorem c9_reshape_skip_witness :
    reshapeStep { columns := ["station_id"], rows := [[Cell.str "X"]], index := [] }
      = .ok (.table { columns := ["station_id"], rows := [[Cell.str "X"]], index := [] }) :=
  c9_reshape_skip { columns := ["station_id"], rows := [[Cell.str "X"]], index := [] }
    (Or.inr (by decide))

/-- C10: for every table identifier, including the empty string, the SQL
built by get_table is a non-empty string (the interpolation supplies the
surrounding literal text), so the transport's empty-SQL check passes, the
request proceeds to the network, and get_table never raises
ValidationError for an empty identifier. -/
theorem c10_get_table_empty_id (t : String) (fm : Option (List (String × String)))
    (ic : Option String) (net : NetOutcome) :
    tableSql t ≠ "" ∧
    get_response_from_lv_data (tableSql t) net = transportExcept (transportTryBody net) ∧
    ∀ msg, get_table t fm ic net ≠ .error (.validationError msg) := by
  have hne : tableSql t ≠ "" :=
    string_append_ne_empty_right _ _ (by decide)
  refine ⟨hne, ?_, ?_⟩
  · unfold get_response_from_lv_data
    rw [if_neg hne]
  · intro msg
    unfold get_table
    exact get_fromsql_not_validation _ _ _ _ _ hne

/-- C2: for every successful envelope (success = true): when the result
object is present with an empty records list, get_lv_meteo_data and
get_fromsql return an empty table (zero rows) without raising; when the
result object is absent, both raise DataNotFoundError. -/
theorem c2_empty_records_vs_no_result
    (fields : List (String × String)) (err : Option String)
    (t : String) (ss ps : List String) (d1 d2 : PyDateTime)
    (sql : String) (fm : Option (List (String × String))) (ic : Option String)
    (ht : t ≠ "") (hs : ss ≠ []) (hp : ps ≠ []) (hd : dtLe d2 d1 = false)
    (hsql : sql ≠ "") :
    (get_lv_meteo_data t (.list ss) (.list ps) (.dt d1) (.dt d2)
        (.ok { success := true, error := err,
               result := some { fields := fields, records := [] } })
      = .ok (.table emptyDataFrame)) ∧
    (get_fromsql sql fm ic
        (.ok { success := true, error := err,
               result := some { fields := fields, records := [] } })
      = .ok emptyDataFrame) ∧
    (get_lv_meteo_data t (.list ss) (.list ps) (.dt d1) (.dt d2)
        (.ok { success := true, error := err, result := none })
      = .error (.dataNotFoundError "No result data returned from API")) ∧
    (get_fromsql sql fm ic
        (.ok { success := true, error := err, result := none })
      = .error (.dataNotFoundError "No result data returned from SQL query")) := by
  refine ⟨?_, ?_, ?_, ?_⟩
  · simp only [get_lv_meteo_data, create_list_ok t ss ps d1 d2 ht hs hp hd,
      bind, Except.bind]
    unfold get_response_from_lv_data
    rw [if_neg (created_sql_ne_empty t ss ps d1 d2)]
    simp [transportExcept, transportTryBody, reraiseWrap]
  · simp only [get_fromsql, bind, Except.bind]
    unfold get_response_from_lv_data
    rw [if_neg hsql]
    simp [transportExcept, transportTryBody, reraiseWrap]
  · simp only [get_lv_meteo_data, create_list_ok t ss ps d1 d2 ht hs hp hd,
      bind, Except.bind]
    unfold get_response_from_lv_data
    rw [if_neg (created_sql_ne_empty t ss ps d1 d2)]
    simp [transportExcept, transportTryBody, reraiseWrap, isPipelineExc]
  · simp only [get_fromsql, bind, Except.bind]
    unfold get_response_from_lv_data
    rw [if_neg hsql]
    simp [transportExcept, transportTryBody, reraiseWrap, isPipelineExc]

/-- Witness for C2 at concrete valid calls. -/
theorem c2_empty_records_vs_no_result_witness :
    (get_lv_meteo_data "T1" (.list ["A"]) (.list ["P1"])
        (.dt ⟨2024, 1, 1, 0, 0, 0, 0⟩) (.dt ⟨2024, 1, 2, 0, 0, 0, 0⟩)
        (.ok { success := true, error := none,
               result := some { fields := [("STATION_ID", "text")], records := [] } })
      = .ok (.table emptyDataFrame)) ∧
    (get_fromsql "SELECT 1" none none
        (.ok { success := true, error := none,
               result := some { fields := [("STATION_ID", "text")], records := [] } })
      = .ok emptyDataFrame) ∧
    (get_lv_meteo_data "T1" (.list ["A"]) (.list ["P1"])
        (.dt ⟨2024, 1, 1, 0, 0, 0, 0⟩) (.dt ⟨2024, 1, 2, 0, 0, 0, 0⟩)
        (.ok { success := true, error := none, result := none })
      = .error (.dataNotFoundError "No result data returned from API")) ∧
    (get_fromsql "SELECT 1" none none
        (.ok { success := true, error := none, result := none })
      = .error (.dataNotFoundError "No result data returned from SQL query")) :=
  c2_empty_records_vs_no_result [("STATION_ID", "text")] none "T1" ["A"] ["P1"]
    ⟨2024, 1, 1, 0, 0, 0, 0⟩ ⟨2024, 1, 2, 0, 0, 0, 0⟩ "SELECT 1" none none
    (by decide) (by decide) (by decide) (by decide) (by decide)

/-- C3 counterexample: at a concrete valid call whose transport sees a
non-success HTTP status (500), the APIError built for the status does not
reach the caller unchanged — the transport's own blanket except-clause
catches it (APIError is an Exception) and re-raises a new APIError with a
prefixed message and the original attached as cause, and that wrapped error
is what get_lv_meteo_data returns. -/
theorem c3_status_rewrap_counterexample :
    get_lv_meteo_data "T1" (.list ["A"]) (.list ["P1"])
        (.dt ⟨2024, 1, 1, 0, 0, 0, 0⟩) (.dt ⟨2024, 1, 2, 0, 0, 0, 0⟩)
        (.badStatus 500 "Server Error")
      = .error (.apiErrorFrom
          "Unexpected error during API request: API request failed with status 500: Server Error"
          (.apiError "API request failed with status 500: Server Error"))
    ∧ get_lv_meteo_data "T1" (.list ["A"]) (.list ["P1"])
        (.dt ⟨2024, 1, 1, 0, 0, 0, 0⟩) (.dt ⟨2024, 1, 2, 0, 0, 0, 0⟩)
        (.badStatus 500 "Server Error")
      ≠ .error (.apiError "API request failed with status 500: Server Error") := by
  constructor
  · rfl
  · intro hc
    rw [show get_lv_meteo_data "T1" (.list ["A"]) (.list ["P1"])
        (.dt ⟨2024, 1, 1, 0, 0, 0, 0⟩) (.dt ⟨2024, 1, 2, 0, 0, 0, 0⟩)
        (.badStatus 500 "Server Error")
      = .error (.apiErrorFrom
          "Unexpected error during API request: API request failed with status 500: Server Error"
          (.apiError "API request failed with status 500: Server Error")) from rfl] at hc
    exact PyExc.noConfusion (Except.error.inj hc)

/-- C3 amended: at the top of each public operation, a ValidationError,
APIError, or DataNotFoundError raised by an inner stage propagates
unchanged, and any other exception is caught once and re-raised as APIError
with the original cause attached; however, inside the transport, the
APIError raised for a non-success HTTP status is itself caught once more by
the transport's blanket except-clause and re-wrapped into a new APIError
(message prefixed, original attached as cause), and it is that wrapped
APIError that then propagates unchanged through get_lv_meteo_data and
get_fromsql. -/
theorem c3_propagation_policy (pfx : String) (e : PyExc) (sql : String)
    (code : Nat) (body : String) (t : String) (ss ps : List String)
    (d1 d2 : PyDateTime) (fm : Option (List (String × String))) (ic : Option String)
    (hsql : sql ≠ "") (ht : t ≠ "") (hs : ss ≠ []) (hp : ps ≠ [])
    (hd : dtLe d2 d1 = false) :
    (isPipelineExc e = true →
      reraiseWrap pfx (Except.error e) = (Except.error e : Except PyExc DataFrame)) ∧
    (isPipelineExc e = false →
      reraiseWrap pfx (Except.error e)
        = (Except.error (.apiErrorFrom (pfx ++ excMsg e) e) : Except PyExc DataFrame)) ∧
    (get_response_from_lv_data sql (.badStatus code body)
      = .error (.apiErrorFrom
          ("Unexpected error during API request: " ++ statusErrorMsg code body)
          (.apiError (statusErrorMsg code body)))) ∧
    (get_lv_meteo_data t (.list ss) (.list ps) (.dt d1) (.dt d2) (.badStatus code body)
      = .error (.apiErrorFrom
          ("Unexpected error during API request: " ++ statusErrorMsg code body)
          (.apiError (statusErrorMsg code body)))) ∧
    (get_fromsql sql fm ic (.badStatus code body)
      = .error (.apiErrorFrom
          ("Unexpected error during API request: " ++ statusErrorMsg code body)
          (.apiError (statusErrorMsg code body)))) := by
  refine ⟨reraiseWrap_pipeline pfx e, reraiseWrap_other pfx e, ?_, ?_, ?_⟩
  · unfold get_response_from_lv_data
    rw [if_neg hsql]
    simp [transportExcept, transportTryBody, excMsg]
  · simp only [get_lv_meteo_data, create_list_ok t ss ps d1 d2 ht hs hp hd,
      bind, Except.bind]
    unfold get_response_from_lv_data
    rw [if_neg (created_sql_ne_empty t ss ps d1 d2)]
    simp [transportExcept, transportTryBody, excMsg, reraiseWrap, isPipelineExc]
  · simp only [get_fromsql, bind, Except.bind]
    unfold get_response_from_lv_data
    rw [if_neg hsql]
    simp [transportExcept, transportTryBody, excMsg, reraiseWrap, isPipelineExc]

/-- Witness for the amended C3 at concrete inputs: an unexpected exception
is wrapped once with its cause attached, a DataNotFoundError passes
unchanged, and a 500 status yields the once-wrapped APIError from both
public operations. -/
theorem c3_propagation_policy_witness :
    (isPipelineExc (.otherError "boom") = false →
      reraiseWrap "P: " (Except.error (.otherError "boom"))
        = (Except.error (.apiErrorFrom ("P: " ++ excMsg (.otherError "boom"))
            (.otherError "boom")) : Except PyExc DataFrame)) ∧
    (isPipelineExc (.dataNotFoundError "gone") = true →
      reraiseWrap "P: " (Except.error (.dataNotFoundError "gone"))
        = (Except.error (.dataNotFoundError "gone") : Except PyExc DataFrame)) ∧
    (get_fromsql "SELECT 1" none none (.badStatus 500 "Server Error")
      = .error (.apiErrorFrom
          ("Unexpected error during API request: " ++ statusErrorMsg 500 "Server Error")
          (.apiError (statusErrorMsg 500 "Server Error")))) :=
  ⟨(c3_propagation_policy "P: " (.otherError "boom") "SELECT 1" 500 "Server Error"
      "T1" ["A"] ["P1"] ⟨2024, 1, 1, 0, 0, 0, 0⟩ ⟨2024, 1, 2, 0, 0, 0, 0⟩ none none
      (by decide) (by decide) (by decide) (by decide) (by decide)).2.1,
   (c3_propagation_policy "P: " (.dataNotFoundError "gone") "SELECT 1" 500 "Server Error"
      "T1" ["A"] ["P1"] ⟨2024, 1, 1, 0, 0, 0, 0⟩ ⟨2024, 1, 2, 0, 0, 0, 0⟩ none none
      (by decide) (by decide) (by decide) (by decide) (by decide)).1,
   (c3_propagation_policy "P: " (.otherError "boom") "SELECT 1" 500 "Server Error"
      "T1" ["A"] ["P1"] ⟨2024, 1, 1, 0, 0, 0, 0⟩ ⟨2024, 1, 2, 0, 0, 0, 0⟩ none none
      (by decide) (by decide) (by decide) (by decide) (by decide)).2.2.2.2⟩

theorem fieldTypeOf_absent (fields : List (String × String)) (c : String)
    (h : ∀ p ∈ fields, p.1 ≠ c) : fieldTypeOf fields c = "text" := by
  unfold fieldTypeOf
  rw [List.find?_eq_none.mpr]
  intro p hp
  simpa using h p (List.mem_reverse.mp hp)

/-- C4 counterexample: a text-typed column holding a null cell does not keep
the null — astype(str) stringifies it, so the cell comes out as the string
"None", not as a null. -/
theorem c4_null_stringified_counterexample :
    records_to_dataframe_raw [("A", "text")] [[("A", Cell.null)], [("A", Cell.str "x")]]
        (some ["A"])
      = { columns := ["A"], rows := [[Cell.str "None"], [Cell.str "x"]], index := [] }
    ∧ Cell.str "None" ≠ Cell.null := by
  exact ⟨rfl, by decide⟩

/-- C4 amended: in records_to_dataframe_raw, every cell of a column whose
declared field type is text is coerced to its string representation — the
non-null cells to their usual string form, and the null cells to the string
form of the missing value ("None"); nulls do not remain null. -/
theorem c4_text_coercion (fields : List (String × String))
    (records : List (List (String × Cell))) (cs : List String) (c : String)
    (hc : c ∈ cs) (ht : fieldTypeOf fields c = "text") :
    columnOf (records_to_dataframe_raw fields records (some cs)) c
      = records.map (fun r => Cell.str (pyStrCell (recordGet r c))) := by
  rw [columnOf_raw fields records cs c hc]
  simp [ht, coerceCell, cellToStr]

/-- Witness for the amended C4: a concrete text column with a null cell and
a string cell comes out fully stringified, the null as "None". -/
theorem c4_text_coercion_witness :
    columnOf (records_to_dataframe_raw [("A", "text")]
        [[("A", Cell.null)], [("A", Cell.str "x")]] (some ["A"])) "A"
      = [Cell.str "None", Cell.str "x"] :=
  (c4_text_coercion [("A", "text")] [[("A", Cell.null)], [("A", Cell.str "x")]]
    ["A"] "A" (by decide) (by decide)).trans (by decide)

/-- C5 counterexample: a column whose field metadata carries the unknown
type tag "json" is not coerced as a text column would be — the numeric cell
5 is left unchanged, while text coercion (and a column with no field
metadata at all) would turn it into the string "5". -/
theorem c5_unknown_tag_counterexample :
    columnOf (records_to_dataframe_raw [("A", "json")] [[("A", Cell.num 5)]]
        (some ["A"])) "A" = [Cell.num 5]
    ∧ columnOf (records_to_dataframe_raw [] [[("A", Cell.num 5)]]
        (some ["A"])) "A" = [Cell.str "5"]
    ∧ Cell.num 5 ≠ Cell.str "5" := by
  exact ⟨rfl, rfl, by decide⟩

/-- C5 amended: in records_to_dataframe_raw, a column whose field metadata
carries a type tag other than text, numeric, or timestamp falls through
every coercion branch and is left unchanged; only a column with no field
metadata at all defaults to text and is coerced to string representation. -/
theorem c5_unknown_tag_behavior (fields : List (String × String))
    (records : List (List (String × Cell))) (cs : List String) (c : String)
    (hc : c ∈ cs) :
    (∀ tag, fieldTypeOf fields c = tag → tag ≠ "text" → tag ≠ "numeric" →
      tag ≠ "timestamp" →
      columnOf (records_to_dataframe_raw fields records (some cs)) c
        = records.map (fun r => recordGet r c)) ∧
    ((∀ p ∈ fields, p.1 ≠ c) →
      columnOf (records_to_dataframe_raw fields records (some cs)) c
        = records.map (fun r => Cell.str (pyStrCell (recordGet r c)))) := by
  constructor
  · intro tag htag h1 h2 h3
    rw [columnOf_raw fields records cs c hc]
    simp [htag, coerceCell, h1, h2, h3]
  · intro habs
    rw [columnOf_raw fields records cs c hc]
    simp [fieldTypeOf_absent fields c habs, coerceCell, cellToStr]

/-- Witness for the amended C5: with the unknown tag "json" the numeric
cell is left as a number; with no field metadata it is stringified. -/
theorem c5_unknown_tag_behavior_witness :
    columnOf (records_to_dataframe_raw [("A", "json")] [[("A", Cell.num 5)]]
        (some ["A"])) "A" = [Cell.num 5]
    ∧ columnOf (records_to_dataframe_raw [] [[("A", Cell.num 5)]]
        (some ["A"])) "A" = [Cell.str "5"] :=
  ⟨((c5_unknown_tag_behavior [("A", "json")] [[("A", Cell.num 5)]] ["A"] "A"
      (by decide)).1 "json" (by decide) (by decide) (by decide) (by decide)).trans
        (by decide),
   ((c5_unknown_tag_behavior [] [[("A", Cell.num 5)]] ["A"] "A"
      (by decide)).2 (by simp)).trans (by decide)⟩

/-- C6: records_to_dataframe_raw returns a table (one row per record) for
every fields/records input; a numeric column is coerced elementwise by
to_numeric with coercion and a timestamp column by to_datetime with
coercion, and on both a string cell that does not parse becomes the missing
sentinel instead of raising. -/
theorem c6_coercion_total (fields : List (String × String))
    (records : List (List (String × Cell))) (cs : List String) (c : String)
    (hc : c ∈ cs) :
    ((records_to_dataframe_raw fields records (some cs)).rows.length
      = records.length) ∧
    (fieldTypeOf fields c = "numeric" →
      columnOf (records_to_dataframe_raw fields records (some cs)) c
        = records.map (fun r => toNumericCell (recordGet r c))) ∧
    (fieldTypeOf fields c = "timestamp" →
      columnOf (records_to_dataframe_raw fields records (some cs)) c
        = records.map (fun r => toDatetimeCell (recordGet r c))) ∧
    (∀ s, parseNumber s = none → toNumericCell (.str s) = .null) ∧
    (∀ s, parseDT s = none → toDatetimeCell (.str s) = .null) := by
  refine ⟨?_, ?_, ?_, ?_, ?_⟩
  · simp [records_to_dataframe_raw]
  · intro htag
    rw [columnOf_raw fields records cs c hc]
    simp [htag, coerceCell]
  · intro htag
    rw [columnOf_raw fields records cs c hc]
    simp [htag, coerceCell]
  · intro s hs
    simp [toNumericCell, hs]
  · intro s hs
    simp [toDatetimeCell, hs]

/-- Witness for C6: a concrete table with unparseable and parseable numeric
and timestamp cells — the unparseable ones come out as the missing
sentinel, the parseable ones as typed values, and no error occurs. -/
theorem c6_coercion_total_witness :
    ((records_to_dataframe_raw [("N", "numeric"), ("T", "timestamp")]
        [[("N", Cell.str "abc"), ("T", Cell.str "nope")],
         [("N", Cell.str "5"), ("T", Cell.str "2024-01-02T03:04:05")]]
        (some ["N", "T"])).rows.length = 2) ∧
    (columnOf (records_to_dataframe_raw [("N", "numeric"), ("T", "timestamp")]
        [[("N", Cell.str "abc"), ("T", Cell.str "nope")],
         [("N", Cell.str "5"), ("T", Cell.str "2024-01-02T03:04:05")]]
        (some ["N", "T"])) "N" = [Cell.null, Cell.num 5]) ∧
    (columnOf (records_to_dataframe_raw [("N", "numeric"), ("T", "timestamp")]
        [[("N", Cell.str "abc"), ("T", Cell.str "nope")],
         [("N", Cell.str "5"), ("T", Cell.str "2024-01-02T03:04:05")]]
        (some ["N", "T"])) "T"
      = [Cell.null, Cell.time ⟨2024, 1, 2, 3, 4, 5, 0⟩ false]) := by
  have h := c6_coercion_total [("N", "numeric"), ("T", "timestamp")]
    [[("N", Cell.str "abc"), ("T", Cell.str "nope")],
     [("N", Cell.str "5"), ("T", Cell.str "2024-01-02T03:04:05")]]
    ["N", "T"] "N" (by decide)
  have h2 := c6_coercion_total [("N", "numeric"), ("T", "timestamp")]
    [[("N", Cell.str "abc"), ("T", Cell.str "nope")],
     [("N", Cell.str "5"), ("T", Cell.str "2024-01-02T03:04:05")]]
    ["N", "T"] "T" (by decide)
  exact ⟨h.1, (h.2.1 (by decide)).trans (by decide),
    (h2.2.2.1 (by decide)).trans (by decide)⟩
